import Mathlib

/-!
Verification development for the garage-door controller (`src/main.py`).

The main loop's state and the functions it calls are shallowly embedded
below.  Timestamps are rationals measured in seconds (the Python code
derives `current_time = time.ticks_ms() / 1000`, a real-valued number of
seconds, and converts to minutes by exact division by 60).  Network
interactions (HTTP requests to the chat API and to the update host) are
modelled by explicit input values describing the outcome of each request.
-/

attribute [local semireducible] Rat.add Rat.sub Rat.mul Rat.inv

namespace GarageBot

/-- `INITIAL_ALERT_MINUTES = 15` from the configuration block. -/
def INITIAL_ALERT_MINUTES : ℚ := 15

/-- `REPEAT_ALERT_MINUTES = 5` from the configuration block. -/
def REPEAT_ALERT_MINUTES : ℚ := 5

/-- `CURRENT_VERSION = "1.0.2"` from the configuration block. -/
def CURRENT_VERSION : String := "1.0.2"

/-- The door-episode state owned by `main()`: the locals
`open_start_time`, `last_alert_time`, `notifications_muted` and the
global `bot_triggered_close`. -/
structure DoorState where
  open_start_time : Option ℚ
  last_alert_time : Option ℚ
  notifications_muted : Bool
  bot_triggered_close : Bool
deriving Repr, DecidableEq

/-- Outcome of one pass through the door-monitoring section of the main
loop (lines 480-521): the updated state, whether an open-door alert
message was sent, and whether a "door closed after N minutes"
notification was sent. -/
structure MonitorResult where
  state : DoorState
  alertSent : Bool
  closedNotice : Bool
deriving Repr, DecidableEq

/-- The door-monitoring section of the main loop (`src/main.py`
lines 487-521), as a function of the previous episode state, the sensor
reading `door_open` and `current_time` (seconds).

* door open, no episode: start the episode (`open_start_time = now`,
  `last_alert_time = None`, `notifications_muted = False`); the code
  does not touch `bot_triggered_close` here.
* door open, episode running: compute `elapsed_minutes` and
  `should_alert` exactly as lines 494-502; the alert is sent and
  `last_alert_time` updated only when `should_alert and not
  notifications_muted` (line 504).
* door closed: send the close notification when an episode existed with
  `elapsed >= 1` minute and `bot_triggered_close` (line 515), then reset
  all four fields (lines 518-521). -/
def monitor_door (s : DoorState) (door_open : Bool) (current_time : ℚ) : MonitorResult :=
  if door_open then
    match s.open_start_time with
    | none =>
        { state := { open_start_time := some current_time, last_alert_time := none,
                     notifications_muted := false,
                     bot_triggered_close := s.bot_triggered_close },
          alertSent := false, closedNotice := false }
    | some open_start =>
        let elapsed_minutes := (current_time - open_start) / 60
        let should_alert : Bool :=
          match s.last_alert_time with
          | none => decide (elapsed_minutes ≥ INITIAL_ALERT_MINUTES)
          | some last_alert =>
              decide ((current_time - last_alert) / 60 ≥ REPEAT_ALERT_MINUTES)
        if should_alert && !s.notifications_muted then
          { state := { s with last_alert_time := some current_time },
            alertSent := true, closedNotice := false }
        else
          { state := s, alertSent := false, closedNotice := false }
  else
    let notice : Bool :=
      match s.open_start_time with
      | none => false
      | some open_start =>
          decide ((current_time - open_start) / 60 ≥ 1) && s.bot_triggered_close
    { state := { open_start_time := none, last_alert_time := none,
                 notifications_muted := false, bot_triggered_close := false },
      alertSent := false, closedNotice := notice }

/-- Outcome of one HTTP GET as seen by the caller: either a response
with a status code and a body, or a network failure (`OSError`, timeout,
or any other exception while performing the request / reading the body,
all of which the Python code catches in the same way). -/
inductive HttpResult where
  | ok (status : Nat) (body : String)
  | netError
deriving Repr, DecidableEq

/-- Python's `str.strip()` (whitespace from both ends), written over
the character list so it evaluates structurally. -/
def py_strip (s : String) : String :=
  String.mk (((s.data.dropWhile Char.isWhitespace).reverse.dropWhile Char.isWhitespace).reverse)

/-- Python's `str.lower()`, written over the character list. -/
def py_lower (s : String) : String :=
  String.mk (s.data.map Char.toLower)

/-- `check_for_update()` (lines 143-178) as a function of the outcome of
the GET on the version file.  Status 200 with body whose `strip()`
differs from `CURRENT_VERSION` yields that remote version; a matching
version, a non-200 status, or any network/parse error yields `None`. -/
def check_for_update (r : HttpResult) : Option String :=
  match r with
  | .ok status body =>
      if status = 200 then
        let remote_version := py_strip body
        if remote_version ≠ CURRENT_VERSION then some remote_version else none
      else none
  | .netError => none

/-- Observable effects of `do_ota_update()` (lines 180-234):
`fileWritten` is the content written over `main.py` (or `none` when the
file was left untouched), `messages` the chat messages sent, `rebooted`
whether `machine.reset()` was reached, and `returned` the Python return
value (`none` models the reboot path, which never returns). -/
structure OtaResult where
  fileWritten : Option String
  messages : List String
  rebooted : Bool
  returned : Option Bool
deriving Repr, DecidableEq

/-- `do_ota_update()` (lines 180-234) as a function of the outcome of
the GET on the replacement `main.py`.  Only a status-200 response with
its full body received writes the file and reboots; a non-success
status or a network error sends a failure message, leaves the file
unmodified and returns `False`. -/
def do_ota_update (r : HttpResult) : OtaResult :=
  match r with
  | .ok status body =>
      if status = 200 then
        { fileWritten := some body,
          messages := ["Downloading update from GitHub...",
                       "Update installed! Rebooting in 3 seconds..."],
          rebooted := true, returned := none }
      else
        { fileWritten := none,
          messages := ["Downloading update from GitHub...",
                       "Update failed: HTTP " ++ toString status],
          rebooted := false, returned := some false }
  | .netError =>
      { fileWritten := none,
        messages := ["Downloading update from GitHub...",
                     "Update failed: Network error"],
        rebooted := false, returned := some false }

/-- `get_door_status_text()` (line 294). -/
def get_door_status_text (door_is_open : Bool) : String :=
  if door_is_open then "Door is OPEN" else "Door is CLOSED"

/-- The static help text returned for `help` (lines 314-324). -/
def help_text : String :=
  "Garage Door Bot Commands:\n\nstatus - Check if door is open or closed\nopen - Open the door (if closed)\nclose - Close the door (if open)\npress - Press the button (toggle door)\nsilence - Mute alerts until door closes\nversion - Show current firmware version\nupdate - Check for and install updates\ndebug - Show system info\nhelp - Show this message"

/-- Placeholder for the `debug` reply (lines 370-376); its runtime
fields (uptime, free memory, loop count, door, broker state) are device
state outside this embedding and no claim depends on its content. -/
def debug_info_text : String := "System Info"

/-- Effects of one `handle_command()` call (lines 305-379): the returned
reply (`none` for unknown commands and for the update path that would
reboot), whether the global `bot_triggered_close` was set to `True`,
whether the relay button was pressed, and whether `do_ota_update()` was
invoked. -/
structure CmdEffect where
  reply : Option String
  setBotTriggered : Bool
  pressed : Bool
  otaStarted : Bool
deriving Repr, DecidableEq

/-- Lines 307-309: `cmd = message_text.lower().strip()`, then
`cmd.split("@")[0]`, i.e. keep only the part before the first `@`. -/
def normalize_cmd (message_text : String) : String :=
  String.mk ((py_strip (py_lower message_text)).data.takeWhile (fun c => c ≠ '@'))

/-- `handle_command()` (lines 305-379).  `door_is_open` is the sensor
sample taken during the call (the function reads the sensor; within one
call we use a single sample, which also stands for the post-press read
in the `press` reply).  `check_result` is the outcome of the version
GET performed when the command is `update`. -/
def handle_command (message_text : String) (door_is_open : Bool)
    (check_result : HttpResult) : CmdEffect :=
  let cmd := normalize_cmd message_text
  if cmd = "help" ∨ cmd = "/help" ∨ cmd = "?" then
    { reply := some help_text, setBotTriggered := false, pressed := false, otaStarted := false }
  else if cmd = "status" ∨ cmd = "/status" then
    { reply := some (get_door_status_text door_is_open),
      setBotTriggered := false, pressed := false, otaStarted := false }
  else if cmd = "open" ∨ cmd = "/open" then
    if door_is_open then
      { reply := some "Door is already open!",
        setBotTriggered := false, pressed := false, otaStarted := false }
    else
      { reply := some "Opening door...",
        setBotTriggered := false, pressed := true, otaStarted := false }
  else if cmd = "close" ∨ cmd = "/close" then
    if !door_is_open then
      { reply := some "Door is already closed!",
        setBotTriggered := false, pressed := false, otaStarted := false }
    else
      { reply := some "Closing door...",
        setBotTriggered := true, pressed := true, otaStarted := false }
  else if cmd = "press" ∨ cmd = "/press" ∨ cmd = "toggle" ∨ cmd = "/toggle" then
    { reply := some ("Button pressed! Door was "
        ++ (if door_is_open then "open" else "closed") ++ "."),
      setBotTriggered := door_is_open, pressed := true, otaStarted := false }
  else if cmd = "silence" ∨ cmd = "/silence" ∨ cmd = "quiet" ∨ cmd = "stop" ∨ cmd = "mute" then
    { reply := some "SILENCE", setBotTriggered := false, pressed := false, otaStarted := false }
  else if cmd = "version" ∨ cmd = "/version" ∨ cmd = "ver" then
    { reply := some ("Version: " ++ CURRENT_VERSION),
      setBotTriggered := false, pressed := false, otaStarted := false }
  else if cmd = "update" ∨ cmd = "/update" then
    match check_for_update check_result with
    | some _ =>
        { reply := none, setBotTriggered := false, pressed := false, otaStarted := true }
    | none =>
        { reply := some ("Already on latest version (" ++ CURRENT_VERSION ++ ")"),
          setBotTriggered := false, pressed := false, otaStarted := false }
  else if cmd = "debug" ∨ cmd = "/debug" ∨ cmd = "info" ∨ cmd = "/info" then
    { reply := some debug_info_text,
      setBotTriggered := false, pressed := false, otaStarted := false }
  else
    { reply := none, setBotTriggered := false, pressed := false, otaStarted := false }

/-- One element of the `getUpdates` result (lines 460-466): the
`update_id`, and — when the update has a `message` with a `text` —
that text together with the sender chat id. -/
structure TgUpdate where
  update_id : ℤ
  message : Option (String × ℤ)
deriving Repr, DecidableEq

/-- The loop-local state threaded through the command-polling section
of one tick: the global `LAST_UPDATE_ID` cursor, the two flags the
commands can change mid-tick, and the replies sent so far. -/
structure PollState where
  cursor : ℤ
  muted : Bool
  botTriggered : Bool
  sent : List String
deriving Repr, DecidableEq

/-- The confirmation sent when the dispatcher returns `"SILENCE"`
(line 473); the leading emoji of the original string is omitted. -/
def mute_confirm_text : String := "Alerts muted until door closes."

/-- Processing of one element of the fetched batch (lines 461-477):
`LAST_UPDATE_ID` is set to the element's `update_id` unconditionally,
before any authorization or shape check; then, only for an authorized
sender, `handle_command` runs and its reply is dispatched (`"SILENCE"`
sets `notifications_muted` and sends the confirmation; any other
non-`None` reply is sent verbatim).  `door_sample` is the sensor value
read during that `handle_command` call. -/
def process_update (chat_auth : ℤ) (check : HttpResult) (st : PollState)
    (u : TgUpdate) (door_sample : Bool) : PollState :=
  let st1 : PollState := { st with cursor := u.update_id }
  match u.message with
  | none => st1
  | some (text, chat_id) =>
      if chat_id = chat_auth then
        let eff := handle_command text door_sample check
        let st2 := if eff.setBotTriggered then { st1 with botTriggered := true } else st1
        match eff.reply with
        | some r =>
            if r = "SILENCE" then
              { st2 with muted := true, sent := st2.sent ++ [mute_confirm_text] }
            else
              { st2 with sent := st2.sent ++ [r] }
        | none => st2
      else st1

/-- The whole polling section for one batch: fold `process_update` over
the fetched list, each update paired with the sensor sample taken while
it was handled. -/
def run_poll (chat_auth : ℤ) (check : HttpResult) (st : PollState)
    (ups : List (TgUpdate × Bool)) : PollState :=
  ups.foldl (fun s p => process_update chat_auth check s p.1 p.2) st

/-- The persistent state of one main-loop iteration that the claims are
about: the command cursor and the door episode. -/
structure LoopState where
  cursor : ℤ
  door : DoorState
deriving Repr, DecidableEq

/-- Inputs of one loop iteration: the current time in seconds, whether
the poll interval elapsed, the fetched batch (with per-update door
samples), the outcome of the version GET should an `update` command
run, and the sensor sample of the door-monitoring section. -/
structure TickIn where
  now : ℚ
  pollDue : Bool
  updates : List (TgUpdate × Bool)
  check : HttpResult
  doorOpenMon : Bool
deriving Repr, DecidableEq

/-- Observable effects of one loop iteration. -/
structure TickEffects where
  sentMessages : List String
  alertSent : Bool
  closedNotice : Bool
deriving Repr, DecidableEq

/-- One iteration of the `while True` loop of `main()` (lines 430-523),
restricted to executions in which no mid-batch reboot happens (i.e. no
successful OTA install, whose `machine.reset()` would end the process):
command polling first (lines 457-477), then door monitoring
(lines 480-521). -/
def loop_tick (chat_auth : ℤ) (s : LoopState) (inp : TickIn) :
    LoopState × TickEffects :=
  let ps0 : PollState :=
    { cursor := s.cursor, muted := s.door.notifications_muted,
      botTriggered := s.door.bot_triggered_close, sent := [] }
  let ps := if inp.pollDue then run_poll chat_auth inp.check ps0 inp.updates else ps0
  let doorMid : DoorState :=
    { s.door with notifications_muted := ps.muted, bot_triggered_close := ps.botTriggered }
  let mr := monitor_door doorMid inp.doorOpenMon inp.now
  (⟨ps.cursor, mr.state⟩,
   ⟨ps.sent, mr.alertSent, mr.closedNotice⟩)

/-- `connect_wifi()` (lines 93-133): an infinite retry loop that only
ever exits by returning `True` once a connectivity check succeeds.
`observations` is the (finite prefix of the) sequence of `isconnected`
checks the loop performs; `none` models the case where none of them
succeeds and the call is still blocked inside the loop. -/
def connect_wifi (observations : List Bool) : Option Bool :=
  if observations.contains true then some true else none

/-- `ensure_wifi()` (lines 135-140): returns `True` immediately when
already connected, otherwise returns whatever `connect_wifi()` returns
(which can only be `True`, after blocking until reconnection). -/
def ensure_wifi (isconnected : Bool) (observations : List Bool) : Option Bool :=
  if isconnected then some true else connect_wifi observations

/-- One loop iteration including the WiFi guard (lines 438-441):
`none` when the tick is still blocked inside `connect_wifi`; otherwise
the resulting state, the effects, and a flag recording whether the
`continue` branch (skip the rest of the tick) was taken. -/
def full_tick (chat_auth : ℤ) (s : LoopState) (isconnected : Bool)
    (observations : List Bool) (inp : TickIn) :
    Option (LoopState × TickEffects × Bool) :=
  match ensure_wifi isconnected observations with
  | none => none
  | some false => some (s, ⟨[], false, false⟩, true)
  | some true =>
      let r := loop_tick chat_auth s inp
      some (r.1, r.2, false)

/-- One tick of an open episode, as the alert engine sees it: commands
handled earlier in the same tick can only switch `notifications_muted`
on (the only assignment in the polling section is
`notifications_muted = True`, line 472), modelled by the injected flag
`sil`; then the monitoring section runs with the door read open. -/
def episode_step (s : DoorState) (sil : Bool) (t : ℚ) : MonitorResult :=
  monitor_door { s with notifications_muted := s.notifications_muted || sil } true t

/-- A sequence of ticks during which the door stays open: returns the
final episode state and the list of times at which an open-door alert
message was actually sent. -/
def run_episode : DoorState → List (Bool × ℚ) → DoorState × List ℚ
  | s, [] => (s, [])
  | s, (sil, t) :: rest =>
      let mr := episode_step s sil t
      let r := run_episode mr.state rest
      (r.1, (if mr.alertSent then [t] else []) ++ r.2)

/-- The alert-schedule invariant: relative to the episode start `t0` and
the last alert time `la`, every alert in the list respects the initial
threshold (when it is the first) or the repeat spacing (relative to its
predecessor). -/
def alerts_ok (t0 : ℚ) : Option ℚ → List ℚ → Prop
  | _, [] => True
  | la, t :: ts =>
      (match la with
       | none => (t - t0) / 60 ≥ INITIAL_ALERT_MINUTES
       | some x => (t - x) / 60 ≥ REPEAT_ALERT_MINUTES) ∧ alerts_ok t0 (some t) ts

/-! ## Helper lemmas -/

lemma monitor_muted_inv (s : DoorState) (d : Bool) (t : ℚ) :
    ((monitor_door s d t).state.notifications_muted = true →
      (monitor_door s d t).state.open_start_time ≠ none) ∧
    (d = false → (monitor_door s d t).state.notifications_muted = false) := by
  obtain ⟨os, la, m, b⟩ := s
  cases d <;> cases os <;> simp [monitor_door] <;> split <;> simp

lemma handle_command_silence_eq (text : String) (door : Bool) (check : HttpResult)
    (h : normalize_cmd text ∈ (["silence", "/silence", "quiet", "stop", "mute"] : List String)) :
    handle_command text door check = ⟨some "SILENCE", false, false, false⟩ := by
  simp only [List.mem_cons, List.not_mem_nil, or_false] at h
  unfold handle_command
  rcases h with h | h | h | h | h <;> rw [h] <;> rfl

lemma handle_command_update_eq (door : Bool) (check : HttpResult) :
    handle_command "update" door check
      = match check_for_update check with
        | some _ => ⟨none, false, false, true⟩
        | none => ⟨some ("Already on latest version (" ++ CURRENT_VERSION ++ ")"),
                   false, false, false⟩ := rfl

lemma check_for_update_fail (status : Nat) (body : String) (h : status ≠ 200) :
    check_for_update (.ok status body) = none := by
  simp [check_for_update, h]

lemma check_for_update_same : check_for_update (.ok 200 CURRENT_VERSION) = none := by decide

lemma process_update_cursor (chat_auth : ℤ) (check : HttpResult) (st : PollState)
    (u : TgUpdate) (d : Bool) :
    (process_update chat_auth check st u d).cursor = u.update_id := by
  unfold process_update
  cases u.message with
  | none => rfl
  | some p =>
      obtain ⟨text, chat_id⟩ := p
      dsimp only
      split_ifs <;> (try rfl) <;>
        (cases h : (handle_command text d check).reply <;> simp [h] <;> split_ifs <;> rfl)

lemma run_poll_cursor (chat_auth : ℤ) (check : HttpResult) (st : PollState)
    (ups : List (TgUpdate × Bool)) :
    (run_poll chat_auth check st ups).cursor
      = ups.foldl (fun c p => p.1.update_id) st.cursor := by
  induction ups generalizing st with
  | nil => rfl
  | cons p rest ih =>
      simp only [run_poll, List.foldl_cons] at *
      rw [ih]
      congr 1
      exact process_update_cursor chat_auth check st p.1 p.2

lemma foldl_last_mem (l : List ℤ) (c : ℤ) (h : l ≠ []) :
    l.foldl (fun _ x => x) c ∈ l := by
  induction l generalizing c with
  | nil => exact absurd rfl h
  | cons a rest ih =>
      cases rest with
      | nil => simp
      | cons b r2 =>
          simp only [List.foldl_cons]
          exact List.mem_cons_of_mem a (ih b (by simp))

lemma foldl_last_ge (l : List ℤ) (c : ℤ) (hs : l.Pairwise (· ≤ ·)) :
    ∀ x ∈ l, x ≤ l.foldl (fun _ x => x) c := by
  induction l generalizing c with
  | nil => simp
  | cons a rest ih =>
      intro x hx
      simp only [List.foldl_cons]
      rcases List.mem_cons.mp hx with hxa | hxr
      · subst hxa
        cases rest with
        | nil => simp
        | cons b r2 =>
            calc x ≤ (b :: r2).foldl (fun _ y => y) x := by
                  have hmem := foldl_last_mem (b :: r2) x (by simp)
                  exact (List.pairwise_cons.mp hs).1 _ hmem
              _ = _ := rfl
      · exact ih a (List.pairwise_cons.mp hs).2 x hxr

lemma run_episode_alerts_ok (t0 : ℚ) (ticks : List (Bool × ℚ)) :
    ∀ (la : Option ℚ) (m b : Bool),
      alerts_ok t0 la (run_episode ⟨some t0, la, m, b⟩ ticks).2 := by
  induction ticks with
  | nil => intro la m b; trivial
  | cons p rest ih =>
      intro la m b
      obtain ⟨sil, t⟩ := p
      by_cases he : ((match la with
          | none => decide ((t - t0) / 60 ≥ INITIAL_ALERT_MINUTES)
          | some x => decide ((t - x) / 60 ≥ REPEAT_ALERT_MINUTES)) && !(m || sil)) = true
      · have hstep : episode_step ⟨some t0, la, m, b⟩ sil t
            = ⟨⟨some t0, some t, m || sil, b⟩, true, false⟩ := by
          simp only [episode_step, monitor_door]
          rw [if_pos he]
          rfl
        have hrun : (run_episode ⟨some t0, la, m, b⟩ ((sil, t) :: rest)).2
            = t :: (run_episode ⟨some t0, some t, m || sil, b⟩ rest).2 := by
          simp [run_episode, hstep]
        rw [hrun]
        refine ⟨?_, ih (some t) (m || sil) b⟩
        rcases la with _ | x
        · have hh := (Bool.and_eq_true _ _).mp he
          simpa using of_decide_eq_true hh.1
        · have hh := (Bool.and_eq_true _ _).mp he
          simpa using of_decide_eq_true hh.1
      · have hstep : episode_step ⟨some t0, la, m, b⟩ sil t
            = ⟨⟨some t0, la, m || sil, b⟩, false, false⟩ := by
          simp only [episode_step, monitor_door]
          rw [if_neg he]
          rfl
        have hrun : (run_episode ⟨some t0, la, m, b⟩ ((sil, t) :: rest)).2
            = (run_episode ⟨some t0, la, m || sil, b⟩ rest).2 := by
          simp [run_episode, hstep]
        rw [hrun]
        exact ih la (m || sil) b

lemma alerts_ok_props (t0 : ℚ) :
    ∀ (ts : List ℚ) (la : Option ℚ), alerts_ok t0 la ts →
      (∀ x, la = some x → (x - t0) / 60 ≥ INITIAL_ALERT_MINUTES) →
      (∀ t ∈ ts, (t - t0) / 60 ≥ INITIAL_ALERT_MINUTES) ∧
      List.Chain' (fun a c => (c - a) / 60 ≥ REPEAT_ALERT_MINUTES) ts ∧
      (∀ x t', la = some x → ts.head? = some t' → (t' - x) / 60 ≥ REPEAT_ALERT_MINUTES) := by
  intro ts
  induction ts with
  | nil => intro la _ _; exact ⟨by simp, List.chain'_nil, by simp⟩
  | cons t rest ih =>
      intro la hok hla
      obtain ⟨hhead, hrest⟩ := hok
      have ht : (t - t0) / 60 ≥ INITIAL_ALERT_MINUTES := by
        rcases la with _ | x
        · simpa using hhead
        · have h1 : (t - x) / 60 ≥ REPEAT_ALERT_MINUTES := by simpa using hhead
          have h2 : (x - t0) / 60 ≥ INITIAL_ALERT_MINUTES := hla x rfl
          simp only [INITIAL_ALERT_MINUTES, REPEAT_ALERT_MINUTES, ge_iff_le] at *
          linarith
      have hti : ∀ x, some t = some x → (x - t0) / 60 ≥ INITIAL_ALERT_MINUTES := by
        intro x hx
        cases hx
        exact ht
      obtain ⟨ha, hb, hc⟩ := ih (some t) hrest hti
      refine ⟨?_, ?_, ?_⟩
      · intro u hu
        rcases List.mem_cons.mp hu with h | h
        · cases h; exact ht
        · exact ha u h
      · refine List.chain'_cons'.mpr ⟨?_, hb⟩
        intro y hy
        exact hc t y rfl hy
      · intro x t' hx ht'
        rw [hx] at hhead
        have htt : t' = t := by
          have h3 := ht'
          simp at h3
          exact h3.symm
        subst htt
        simpa using hhead

/-! ## Claim C1 -/

/-- C1, counterexample to the claim as stated.  Scenario of the claim
(in seconds): door open since t = 0, first alert sent at t = 900
(15 min), muted afterwards; at t = 1200 (20 min) an alert is due
(`minutes_since_alert = 5 ≥ REPEAT_ALERT_MINUTES`), as the unmuted twin
run confirms (fourth conjunct).  The claim says the muted engine still
sets `last_alert_at = now = 1200`; the code leaves it at 900 (first and
second conjuncts) and sends nothing (third conjunct): when muted, the
alert does not "fire with the send suppressed", it does not fire at
all, and no bookkeeping update happens. -/
theorem muted_due_alert_keeps_last_alert_cex :
    (monitor_door ⟨some 0, some 900, true, false⟩ true 1200).state.last_alert_time = some 900 ∧
    (monitor_door ⟨some 0, some 900, true, false⟩ true 1200).state.last_alert_time ≠ some 1200 ∧
    (monitor_door ⟨some 0, some 900, true, false⟩ true 1200).alertSent = false ∧
    (monitor_door ⟨some 0, some 900, false, false⟩ true 1200).alertSent = true := by
  decide

/-- C1, amended: while `muted` is true and an episode is running, a tick
of the alert engine changes nothing at all — `last_alert_at` keeps its
old value (it is NOT set to `now`), no notification goes out.  Hence
muting does not advance the alert timer: in the claim's scenario the
alert stays due at t = 20:00 (and at any later time) because
`last_alert_at` remained at 15:00. -/
theorem muted_due_alert_suppressed_entirely (s : DoorState) (o now : ℚ)
    (hm : s.notifications_muted = true) (ho : s.open_start_time = some o) :
    (monitor_door s true now).state = s ∧ (monitor_door s true now).alertSent = false := by
  simp [monitor_door, ho, hm]

/-- C1, witness: the amended theorem applied to the muted state of the
scenario at t = 1200. -/
theorem muted_due_alert_suppressed_entirely_witness :
    (monitor_door ⟨some 0, some 900, true, false⟩ true 1200).state
        = ⟨some 0, some 900, true, false⟩ ∧
    (monitor_door ⟨some 0, some 900, true, false⟩ true 1200).alertSent = false :=
  muted_due_alert_suppressed_entirely ⟨some 0, some 900, true, false⟩ 0 1200 rfl rfl

/-! ## Claim C2 -/

/-- C2, counterexample to the claim as stated.  A reachable tick with a
closed→open transition (boot with the door already open, so
`open_start_time` is `None` while the sensor reads open) during which
an authorized `close` command is handled: `handle_command` sets
`bot_triggered_close = True` (door read open at the command), and the
episode-start branch (lines 488-492) then sets `open_start_time`,
clears `last_alert_time` and `notifications_muted` — but does NOT clear
`bot_triggered_close`, which survives into the new episode.  The claim
says the transition clears all three flags. -/
theorem open_transition_keeps_attribution_flag_cex :
    (loop_tick 7 ⟨0, ⟨none, none, false, false⟩⟩
        ⟨0, true, [(⟨5, some ("close", 7)⟩, true)], HttpResult.netError, true⟩).1.door
      = ⟨some 0, none, false, true⟩ := by
  decide

/-- C2, amended: on a closed→open transition the engine sets
`open_since = now` and clears `last_alert_at` and `muted`, but leaves
the close-attribution flag (`bot_triggered_close`) untouched; that flag
is instead reset on every tick in which the door reads closed. -/
theorem open_transition_resets_episode_fields (s : DoorState) (now : ℚ)
    (h : s.open_start_time = none) :
    monitor_door s true now
      = ⟨⟨some now, none, false, s.bot_triggered_close⟩, false, false⟩ := by
  simp [monitor_door, h]

/-- C2, witness: the amended theorem at a state with the attribution
flag set, showing the flag carried into the fresh episode. -/
theorem open_transition_resets_episode_fields_witness :
    monitor_door ⟨none, none, false, true⟩ true 42
      = ⟨⟨some 42, none, false, true⟩, false, false⟩ :=
  open_transition_resets_episode_fields ⟨none, none, false, true⟩ 42 rfl

/-! ## Claim C3 -/

/-- C3: on any tick in which the door reads closed, the "door closed
after N minutes" notification is emitted iff an episode existed with
elapsed time at least 1 minute AND the close was attributed to a remote
command (`bot_triggered_close`); and whether or not it is emitted, the
episode is destroyed unconditionally: all four fields return to their
defaults. -/
theorem close_transition_notice_iff_and_reset (s : DoorState) (now : ℚ) :
    (monitor_door s false now).state = ⟨none, none, false, false⟩ ∧
    ((monitor_door s false now).closedNotice = true ↔
      ∃ o, s.open_start_time = some o ∧ (now - o) / 60 ≥ 1 ∧ s.bot_triggered_close = true) := by
  obtain ⟨os, la, m, b⟩ := s
  cases os <;> simp [monitor_door]

/-! ## Claim C4 -/

/-- C4: over any sequence of ticks of one open episode (starting from
the episode-start state: `last_alert_at = None`, `muted` cleared, with
commands allowed to switch muting on at any tick), every emitted alert
happens at elapsed time at least `INITIAL_ALERT_MINUTES`, and any two
consecutive emitted alerts are at least `REPEAT_ALERT_MINUTES`
apart. -/
theorem alert_schedule_within_episode (t0 : ℚ) (b : Bool) (ticks : List (Bool × ℚ)) :
    (∀ t ∈ (run_episode ⟨some t0, none, false, b⟩ ticks).2,
        (t - t0) / 60 ≥ INITIAL_ALERT_MINUTES) ∧
    List.Chain' (fun a c => (c - a) / 60 ≥ REPEAT_ALERT_MINUTES)
      (run_episode ⟨some t0, none, false, b⟩ ticks).2 := by
  have h := run_episode_alerts_ok t0 ticks none false b
  have h2 := alerts_ok_props t0 (run_episode ⟨some t0, none, false, b⟩ ticks).2 none h (by simp)
  exact ⟨h2.1, h2.2.1⟩

/-! ## Claim C5 -/

/-- C5: after the polling section processes a fetched batch (each update
setting `LAST_UPDATE_ID` unconditionally, before any authorization or
payload-shape check), the cursor equals the maximum identifier of the
batch — provided the provider returned the batch in increasing-id order
(`hsorted`) — and, since the request asks only for identifiers greater
than the cursor (`offset = LAST_UPDATE_ID + 1`, hypothesis `hoffset`),
the cursor never decreases.  The last conjunct shows the new cursor is
the same whatever the authorized chat id or the outcome of any update
check: unauthorized and malformed messages advance it identically. -/
theorem cursor_batch_max_and_monotone (chat_auth : ℤ) (check : HttpResult)
    (st : PollState) (ups : List (TgUpdate × Bool))
    (hsorted : (ups.map (fun p => p.1.update_id)).Pairwise (· ≤ ·))
    (hoffset : ∀ p ∈ ups, st.cursor < p.1.update_id) :
    (ups ≠ [] →
      (run_poll chat_auth check st ups).cursor ∈ ups.map (fun p => p.1.update_id) ∧
      ∀ p ∈ ups, p.1.update_id ≤ (run_poll chat_auth check st ups).cursor) ∧
    st.cursor ≤ (run_poll chat_auth check st ups).cursor ∧
    ∀ (chat2 : ℤ) (check2 : HttpResult),
      (run_poll chat2 check2 st ups).cursor = (run_poll chat_auth check st ups).cursor := by
  have hfold : ∀ (c : ℤ), ups.foldl (fun c p => p.1.update_id) c
      = (ups.map (fun p => p.1.update_id)).foldl (fun _ x => x) c := by
    intro c
    rw [List.foldl_map]
  constructor
  · intro hne
    constructor
    · rw [run_poll_cursor, hfold]
      exact foldl_last_mem _ _ (by simpa using hne)
    · intro p hp
      rw [run_poll_cursor, hfold]
      exact foldl_last_ge _ _ hsorted _ (List.mem_map_of_mem _ hp)
  constructor
  · cases hups : ups with
    | nil => simp [run_poll_cursor, hups]
    | cons q rest =>
        subst hups
        have hmem : (run_poll chat_auth check st (q :: rest)).cursor
            ∈ (q :: rest).map (fun p => p.1.update_id) := by
          rw [run_poll_cursor, hfold]
          exact foldl_last_mem _ _ (by simp)
        obtain ⟨p, hp, hpe⟩ := List.mem_map.mp hmem
        rw [hpe.symm] at *
        exact le_of_lt (hoffset p hp)
  · intro chat2 check2
    rw [run_poll_cursor, run_poll_cursor]

/-- C5, witness: a batch containing one malformed update (no message
payload) and one message from an unauthorized chat (99, against
authorized 7); the cursor still ends at the batch maximum 3, not below
the prior cursor 0. -/
theorem cursor_batch_max_and_monotone_witness :
    (run_poll 7 HttpResult.netError ⟨0, false, false, []⟩
        [(⟨1, none⟩, false), (⟨3, some ("zzz", 99)⟩, true)]).cursor = 3 ∧
    (0 : ℤ) ≤ (run_poll 7 HttpResult.netError ⟨0, false, false, []⟩
        [(⟨1, none⟩, false), (⟨3, some ("zzz", 99)⟩, true)]).cursor := by
  have h := cursor_batch_max_and_monotone 7 HttpResult.netError ⟨0, false, false, []⟩
      [(⟨1, none⟩, false), (⟨3, some ("zzz", 99)⟩, true)] (by decide) (by decide)
  exact ⟨by decide, h.2.1⟩

/-! ## Claim C6 -/

/-- C6: at the end of every loop tick, `muted` can be true only while
`open_since` is non-none (first conjunct); on any tick in which the
door reads closed — in particular on every open→closed transition —
`muted` is false by the end of that same tick (second conjunct); and
the reset is idempotent: running another closed-door tick from the
resulting state leaves `muted` false again (third conjunct). -/
theorem muted_only_while_open_invariant (chat_auth : ℤ) (s : LoopState) (inp : TickIn) :
    ((loop_tick chat_auth s inp).1.door.notifications_muted = true →
      (loop_tick chat_auth s inp).1.door.open_start_time ≠ none) ∧
    (inp.doorOpenMon = false →
      (loop_tick chat_auth s inp).1.door.notifications_muted = false) ∧
    (inp.doorOpenMon = false →
      (loop_tick chat_auth (loop_tick chat_auth s inp).1 inp).1.door.notifications_muted
        = false) := by
  have h1 : ∀ (s2 : LoopState),
      ((loop_tick chat_auth s2 inp).1.door.notifications_muted = true →
        (loop_tick chat_auth s2 inp).1.door.open_start_time ≠ none) ∧
      (inp.doorOpenMon = false →
        (loop_tick chat_auth s2 inp).1.door.notifications_muted = false) := by
    intro s2
    simp only [loop_tick]
    exact monitor_muted_inv _ _ _
  exact ⟨(h1 s).1, (h1 s).2, fun hd => (h1 (loop_tick chat_auth s inp).1).2 hd⟩

/-- C6, witness: a tick that starts muted inside an episode and reads
the door closed ends with `muted` false. -/
theorem muted_only_while_open_invariant_witness :
    (loop_tick 7 ⟨0, ⟨some 0, some 900, true, false⟩⟩
        ⟨1000, false, [], HttpResult.netError, false⟩).1.door.notifications_muted = false :=
  (muted_only_while_open_invariant 7 ⟨0, ⟨some 0, some 900, true, false⟩⟩
      ⟨1000, false, [], HttpResult.netError, false⟩).2.1 rfl

/-! ## Claim C7 -/

/-- C7, counterexample to the claim as stated: an authorized `silence`
command handled while the door reads closed (sensor sample `false`)
still sets `muted = true` and still sends the confirmation reply.
Neither `handle_command` (lines 351-352) nor the dispatch site
(lines 471-473) checks that the door is open, so the "door open"
condition of the spec's command table does not exist in the code. -/
theorem silence_when_door_closed_cex :
    process_update 7 HttpResult.netError ⟨0, false, false, []⟩ ⟨1, some ("silence", 7)⟩ false
      = ⟨1, true, false, [mute_confirm_text]⟩ := by
  decide

/-- C7, amended: any silence-family command (`silence`, `/silence`,
`quiet`, `stop`, `mute`) from the authorized chat sets `muted = true`
and sends the confirmation unconditionally, whatever the door state
(the flag is cleared again at the end of the tick by the door-closed
reset when the door is closed, per C6). -/
theorem silence_family_unconditional (text : String) (door : Bool) (check : HttpResult)
    (st : PollState) (uid chat_auth : ℤ)
    (h : normalize_cmd text ∈ (["silence", "/silence", "quiet", "stop", "mute"] : List String)) :
    process_update chat_auth check st ⟨uid, some (text, chat_auth)⟩ door
      = { st with cursor := uid, muted := true, sent := st.sent ++ [mute_confirm_text] } := by
  simp [process_update, handle_command_silence_eq text door check h]

/-- C7, witness: the synonym `quiet` with the door open. -/
theorem silence_family_unconditional_witness :
    process_update 7 HttpResult.netError ⟨10, false, false, []⟩ ⟨11, some ("quiet", 7)⟩ true
      = ⟨11, true, false, [mute_confirm_text]⟩ := by
  have h := silence_family_unconditional "quiet" true HttpResult.netError
      ⟨10, false, false, []⟩ 11 7 (by decide)
  simpa using h

/-! ## Claim C8 -/

/-- C8: a non-success download status, or a network failure, leaves the
program file unmodified, sends an "Update failed" reply, and does not
reboot (the call returns `False` instead of reaching
`machine.reset()`); and the file is only ever overwritten — with the
received body, followed by a reboot — when the status is a success
(200). -/
theorem ota_nonsuccess_preserves_file (status : Nat) (body : String) (h : status ≠ 200) :
    do_ota_update (.ok status body)
      = ⟨none, ["Downloading update from GitHub...",
                "Update failed: HTTP " ++ toString status], false, some false⟩ ∧
    do_ota_update .netError
      = ⟨none, ["Downloading update from GitHub...",
                "Update failed: Network error"], false, some false⟩ ∧
    ∀ (r : HttpResult) (b : String), (do_ota_update r).fileWritten = some b →
      r = .ok 200 b ∧ (do_ota_update r).rebooted = true := by
  refine ⟨by simp [do_ota_update, h], rfl, ?_⟩
  intro r b hw
  cases r with
  | ok st bd =>
      by_cases h2 : st = 200
      · subst h2
        simp [do_ota_update] at hw
        subst hw
        simp [do_ota_update]
      · simp [do_ota_update, h2] at hw
  | netError => simp [do_ota_update] at hw

/-- C8, witness: the theorem at HTTP status 404. -/
theorem ota_nonsuccess_preserves_file_witness :
    do_ota_update (.ok 404 "payload")
      = ⟨none, ["Downloading update from GitHub...",
                "Update failed: HTTP " ++ toString 404], false, some false⟩ ∧
    (do_ota_update (.ok 404 "payload")).fileWritten = none ∧
    (do_ota_update (.ok 404 "payload")).rebooted = false := by
  have h := ota_nonsuccess_preserves_file 404 "payload" (by decide)
  exact ⟨h.1, by rw [h.1], by rw [h.1]⟩

/-! ## Claim C9 -/

/-- C9, counterexample to the claim as stated: a tick that starts with
the wireless link down (`isconnected = false`).  The claim says such a
tick aborts early, skipping command polling and door logic.  Instead,
`connect_wifi` blocks and retries until a connectivity check succeeds
(here the second observation), returns `True`, and the SAME tick then
runs the door logic after reconnection: the episode is started
(`open_start_time` set) and the skip flag of the embedding is false. -/
theorem wifi_down_tick_proceeds_cex :
    full_tick 7 ⟨0, ⟨none, none, false, false⟩⟩ false [false, true]
        ⟨0, false, [], HttpResult.netError, true⟩
      = some (⟨0, ⟨some 0, none, false, false⟩⟩, ⟨[], false, false⟩, false) := by
  decide

/-- C9, amended: `ensure_wifi` can only ever return `True` when it
returns (`connect_wifi` retries forever), so the early-abort branch
(`if not ensure_wifi(): continue`, lines 439-441) is dead code:
whenever a tick completes at all, it completed by running the full
body — command polling and door logic — after (re)connection, never in
a degraded mode; when the link never comes back the tick simply never
completes (`full_tick` returns `none`). -/
theorem wifi_guard_never_skips (chat_auth : ℤ) (s : LoopState) (c : Bool)
    (obs : List Bool) (inp : TickIn)
    (res : LoopState × TickEffects × Bool)
    (h : full_tick chat_auth s c obs inp = some res) :
    res.2.2 = false ∧ (res.1, res.2.1) = loop_tick chat_auth s inp := by
  unfold full_tick ensure_wifi connect_wifi at h
  split_ifs at h <;> first | (cases h; exact ⟨rfl, rfl⟩) | simp_all

/-- C9, witness: the theorem applied to a link-down tick that
reconnects on its only retry observation. -/
theorem wifi_guard_never_skips_witness :
    ((⟨0, ⟨none, none, false, false⟩⟩, ⟨[], false, false⟩, false) :
        LoopState × TickEffects × Bool).2.2 = false ∧
    (((⟨0, ⟨none, none, false, false⟩⟩, ⟨[], false, false⟩, false) :
        LoopState × TickEffects × Bool).1,
     ((⟨0, ⟨none, none, false, false⟩⟩, ⟨[], false, false⟩, false) :
        LoopState × TickEffects × Bool).2.1)
      = loop_tick 7 ⟨0, ⟨none, none, false, false⟩⟩ ⟨5, false, [], HttpResult.netError, false⟩ :=
  wifi_guard_never_skips 7 ⟨0, ⟨none, none, false, false⟩⟩ false [true]
    ⟨5, false, [], HttpResult.netError, false⟩
    (⟨0, ⟨none, none, false, false⟩⟩, ⟨[], false, false⟩, false) (by decide)

/-! ## Claim C10 -/

/-- C10: when the version check fails (network error, or any non-200
status), the `update` command produces exactly the same dispatcher
outcome as when the remote version equals the current one: the reply
"Already on latest version (1.0.2)" with no side effects — in
particular `otaStarted = false`, so no download is attempted in either
case, and the operator cannot distinguish a failed check from being up
to date. -/
theorem update_check_failure_same_reply (door : Bool) (status : Nat) (body : String)
    (h : status ≠ 200) :
    handle_command "update" door HttpResult.netError
      = ⟨some ("Already on latest version (" ++ CURRENT_VERSION ++ ")"), false, false, false⟩ ∧
    handle_command "update" door (.ok status body)
      = handle_command "update" door HttpResult.netError ∧
    handle_command "update" door (.ok 200 CURRENT_VERSION)
      = handle_command "update" door HttpResult.netError := by
  rw [handle_command_update_eq, handle_command_update_eq, handle_command_update_eq,
      check_for_update_fail status body h, check_for_update_same]
  simp [check_for_update]

/-- C10, witness: the theorem at HTTP status 500. -/
theorem update_check_failure_same_reply_witness :
    handle_command "update" true HttpResult.netError
      = ⟨some ("Already on latest version (" ++ CURRENT_VERSION ++ ")"), false, false, false⟩ ∧
    handle_command "update" true (.ok 500 "oops")
      = handle_command "update" true HttpResult.netError ∧
    handle_command "update" true (.ok 200 CURRENT_VERSION)
      = handle_command "update" true HttpResult.netError :=
  update_check_failure_same_reply true 500 "oops" (by decide)

end GarageBot
